import Mathlib

/-! Shallow embedding of the RAG question-generation service, translated from
app/services/qg_service.py and app/api/endpoints/generate.py: the output
validator, the retrieval policy, the three generation agents, the
orchestration entry point run_generation, and the HTTP endpoint handler
generate_questions.  The vector-store similarity search and the
structured-output LLM calls are external collaborators and are modelled as
oracle functions passed in as arguments; Python exceptions crossing the
service boundary are modelled with Except. -/

namespace RagQG

/-- Python str.lower (ASCII case folding, which is all the code relies on). -/
def pyLower (s : String) : String := String.mk (s.data.map Char.toLower)

/-- Split a character list on every occurrence of the separator, keeping empty
pieces, matching the semantics of Python str.split with an explicit one
character separator: the empty input yields one empty piece. -/
def splitChar (sep : Char) : List Char → List (List Char)
  | [] => [[]]
  | c :: cs =>
    match splitChar sep cs with
    | [] => [[c]]
    | r :: rs => if c = sep then [] :: r :: rs else (c :: r) :: rs

/-- Python s.split(" "): split on each single space character (code 32). -/
def pySplitSpace (s : String) : List String :=
  (splitChar (Char.ofNat 32) s.data).map String.mk

/-- Python substring test, as in the expression pat in s for strings: the
character sequence of pat occurs contiguously inside that of s. -/
def hasSubstr (s pat : String) : Bool := decide (List.IsInfix pat.data s.data)

/-- Python truthiness of an optional string, as used on d.get(key): both a
missing key (None) and an empty string are falsy. -/
def pyTruthy : Option String → Bool
  | none => false
  | some v => !v.isEmpty

/-- A retrieved document chunk.  The page field models doc.metadata, where the
page key may be absent; the code reads it with metadata.get, supplying a
default where needed. -/
structure Chunk where
  page : Option Int
  text : String
  deriving DecidableEq

/-- One generated question item, as the Python dict produced by pydantic
model_dump: MCQ items carry question, options, correct answer, explanation and
source page; fill-in-the-blank items carry sentence, correct answer and source
page.  The validator reads every field through dict.get, so each field is
optional here. -/
structure QItem where
  question : Option String := none
  options : Option (List String) := none
  correct_answer : Option String := none
  explanation : Option String := none
  sentence : Option String := none
  source_page : Option Int := none
  deriving DecidableEq

/-- A generation payload dict: the optional questions entry (the only key the
validator reads or writes), plus the rest of the dict abstracted as a value of
an arbitrary type that the validator never inspects. -/
structure Payload (α : Type) where
  questions : Option (List QItem)
  rest : α
  deriving DecidableEq

/-- The pydantic Summary model: summary text plus cited source pages. -/
structure Summary where
  summary_text : String
  source_pages : List Int
  deriving DecidableEq

/-- The blank placeholder the validator requires in fill-in-the-blank
sentences. -/
def blankMarker : String := "_________"

/-- The computation topic.lower().split(" ")[-1] if topic else None from
validate_and_filter_output; by Python truthiness an empty topic string behaves
like an absent topic. -/
def topic_word : Option String → Option String
  | none => none
  | some t => if t.isEmpty then none else some ((pySplitSpace (pyLower t)).getLastD "")

/-- The concatenation q.get("question", "") + q.get("explanation", "") +
q.get("sentence", "") from the relevance check. -/
def combinedText (q : QItem) : String :=
  q.question.getD "" ++ q.explanation.getD "" ++ q.sentence.getD ""

/-- The per-item decision of validate_and_filter_output, given the relevance
token: discard an item carrying a sentence key whose value lacks the blank
marker; discard an item whose correct answer is missing or empty; and, when
the relevance token is truthy, discard an item whose lower-cased combined text
does not contain the token. -/
def keepQ (tw : Option String) (q : QItem) : Bool :=
  if q.sentence.isSome && !(hasSubstr (q.sentence.getD "") blankMarker) then false
  else if !(pyTruthy q.correct_answer) then false
  else
    match tw with
    | some w => if w.isEmpty then true else hasSubstr (pyLower (combinedText q)) w
    | none => true

/-- validate_and_filter_output from qg_service.py: a payload without a
questions key is returned unchanged; otherwise the questions list is replaced
by the sublist of items passing keepQ. -/
def validate_and_filter_output {α : Type} (output : Payload α) (topic : Option String) :
    Payload α :=
  match output.questions with
  | none => output
  | some qs => { output with questions := some (qs.filter (keepQ (topic_word topic))) }

/-- sorted(list(set(doc.metadata.get("page", 0) for doc in documents))) from
summary_agent. -/
def sortedDistinctPages (documents : List Chunk) : List Int :=
  List.insertionSort (· ≤ ·) ((documents.map fun d => d.page.getD 0).dedup)

/-- The Python exceptions that cross the service boundary: FileNotFoundError
from the retrieval node, and fastapi HTTPException with a status code and a
detail string. -/
inductive PyExc where
  | fileNotFound (msg : String)
  | httpExc (status : Nat) (detail : String)
  deriving DecidableEq

/-- Python str(e) for those exceptions; a Starlette HTTPException prints as
its status code, a colon and the detail. -/
def strOfExc : PyExc → String
  | .fileNotFound m => m
  | .httpExc s d => toString s ++ ": " ++ d

/-- The fixed fallback query issued when no topic is supplied. -/
def genericQuery : String :=
  "general overview of the document" ++ (Char.ofNat 39).toString ++ "s main concepts"

/-- The FileNotFoundError message raised when the persisted index is absent. -/
def vectorStoreMissingMsg : String := "Vector store not found. Please ingest a document first."

/-- retrieve_documents from qg_service.py.  The search oracle models
retriever.invoke after search_kwargs k has been set; storeExists models the
Path(VECTOR_STORE_PATH).exists() check guarding lazy initialization.  A truthy
topic is queried directly; an absent or empty topic falls back to the generic
query with the result truncated to context_chunks. -/
def retrieve_documents (search : String → Nat → List Chunk) (storeExists : Bool)
    (topic : Option String) (context_chunks : Nat) : Except PyExc (List Chunk) :=
  if storeExists then
    match topic with
    | some t =>
      if t.isEmpty then .ok ((search genericQuery context_chunks).take context_chunks)
      else .ok (search t context_chunks)
    | none => .ok ((search genericQuery context_chunks).take context_chunks)
  else
    .error (.fileNotFound vectorStoreMissingMsg)

/-- The discriminated content type of a generation request. -/
inductive ContentType where
  | MCQ
  | FillInTheBlank
  | Summary
  deriving DecidableEq

/-- mcq_agent: the structured LLM call is the oracle; its questions become the
final output payload, whose dict has only the questions key. -/
def mcq_agent (llm : List Chunk → Option String → Option Nat → List QItem)
    (documents : List Chunk) (topic : Option String) (num_questions : Option Nat) :
    Payload (Option Summary) :=
  { questions := some (llm documents topic num_questions), rest := none }

/-- fitb_agent: same shape as mcq_agent with its own oracle. -/
def fitb_agent (llm : List Chunk → Option String → Option Nat → List QItem)
    (documents : List Chunk) (topic : Option String) (num_questions : Option Nat) :
    Payload (Option Summary) :=
  { questions := some (llm documents topic num_questions), rest := none }

/-- summary_agent: calls the LLM oracle and then unconditionally overwrites
result.source_pages with the sorted distinct pages of the retrieved documents
before emitting the final output. -/
def summary_agent (llm : List Chunk → Option String → Summary)
    (documents : List Chunk) (topic : Option String) : Payload (Option Summary) :=
  let result := llm documents topic
  { questions := none,
    rest := some { result with source_pages := sortedDistinctPages documents } }

/-- run_generation from qg_service.py: run the graph (retrieve, route on
content_type to one agent), validate the final output, and wrap any exception
raised on the way in HTTPException(500, ...) via the blanket except clause. -/
def run_generation (search : String → Nat → List Chunk) (storeExists : Bool)
    (llmMCQ llmFITB : List Chunk → Option String → Option Nat → List QItem)
    (llmSummary : List Chunk → Option String → Summary)
    (topic : Option String) (content_type : ContentType)
    (num_questions : Option Nat) (context_chunks : Nat) :
    Except PyExc (Payload (Option Summary)) :=
  let body : Except PyExc (Payload (Option Summary)) :=
    match retrieve_documents search storeExists topic context_chunks with
    | .error e => .error e
    | .ok documents =>
      let final_output : Payload (Option Summary) :=
        match content_type with
        | .MCQ => mcq_agent llmMCQ documents topic num_questions
        | .FillInTheBlank => fitb_agent llmFITB documents topic num_questions
        | .Summary => summary_agent llmSummary documents topic
      .ok (validate_and_filter_output final_output topic)
  match body with
  | .ok v => .ok v
  | .error e =>
    .error (.httpExc 500 ("An error occurred during content generation: " ++ strOfExc e))

/-- Python truthiness of any(generated_data.values()) over the payload dict:
some value of the dict is truthy. -/
def payload_any (p : Payload (Option Summary)) : Bool :=
  (match p.questions with
   | some qs => !qs.isEmpty
   | none => false) ||
  (match p.rest with
   | some s => !s.summary_text.isEmpty || !s.source_pages.isEmpty
   | none => false)

/-- Python truthiness of the payload dict itself: a dict is falsy only when it
has no keys at all. -/
def payload_nonempty_dict (p : Payload (Option Summary)) : Bool :=
  p.questions.isSome || p.rest.isSome

/-- The detail string of the HTTPException(404) raised for an empty result. -/
def emptyResultDetail : String := "The agent could not generate content for the given topic."

/-- The generate_questions endpoint handler from generate.py.  The
HTTPException(404) raised inside the try block when the payload is falsy or
all its values are falsy is itself an Exception, so it is caught by the
handlers below the try block rather than reaching the client as a 404; a
FileNotFoundError raised by run_generation would map to 400, and every other
exception maps to 500. -/
def generate_questions (search : String → Nat → List Chunk) (storeExists : Bool)
    (llmMCQ llmFITB : List Chunk → Option String → Option Nat → List QItem)
    (llmSummary : List Chunk → Option String → Summary)
    (topic : Option String) (content_type : ContentType)
    (num_questions : Option Nat) (context_chunks : Nat) :
    Except PyExc (Payload (Option Summary)) :=
  match run_generation search storeExists llmMCQ llmFITB llmSummary topic content_type
      num_questions context_chunks with
  | .ok data =>
    if !payload_nonempty_dict data || !payload_any data then
      .error (.httpExc 500 ("An error occurred: " ++ strOfExc (.httpExc 404 emptyResultDetail)))
    else .ok data
  | .error (.fileNotFound m) => .error (.httpExc 400 m)
  | .error e => .error (.httpExc 500 ("An error occurred: " ++ strOfExc e))

/-- Rewrite the source page of every question item by f, leaving everything
else unchanged; used to state that validation never inspects source pages. -/
def mapSourcePages {α : Type} (f : Option Int → Option Int) (p : Payload α) : Payload α :=
  { p with
    questions := p.questions.map (List.map fun q => { q with source_page := f q.source_page }) }

/-! Helper lemmas about the validator. -/

theorem validate_eq_of_questions_none {α : Type} (p : Payload α) (t : Option String)
    (hq : p.questions = none) : validate_and_filter_output p t = p := by
  unfold validate_and_filter_output
  rw [hq]

theorem validate_eq_of_questions_some {α : Type} (p : Payload α) (t : Option String)
    (qs : List QItem) (hq : p.questions = some qs) :
    validate_and_filter_output p t =
      { p with questions := some (qs.filter (keepQ (topic_word t))) } := by
  unfold validate_and_filter_output
  rw [hq]

theorem keepQ_ignores_source_page (tw : Option String) (q : QItem)
    (f : Option Int → Option Int) :
    keepQ tw { q with source_page := f q.source_page } = keepQ tw q := rfl

theorem keepQ_empty_token : (keepQ (some "") : QItem → Bool) = keepQ none := by
  funext q
  rfl

/-- C5: the validator is idempotent: applying validate_and_filter_output to
its own output, with the same topic, yields that output unchanged; no further
items are discarded on a second pass. -/
theorem validate_and_filter_output_idem {α : Type} (p : Payload α) (t : Option String) :
    validate_and_filter_output (validate_and_filter_output p t) t =
      validate_and_filter_output p t := by
  cases hq : p.questions with
  | none =>
    rw [validate_eq_of_questions_none p t hq, validate_eq_of_questions_none p t hq]
  | some qs =>
    rw [validate_eq_of_questions_some p t qs hq]
    rw [validate_eq_of_questions_some _ t (qs.filter (keepQ (topic_word t))) rfl]
    rw [List.filter_filter]
    simp only [Bool.and_self]

/-- C10: the validator is frame-preserving: every part of the payload other
than the questions entry keeps its original value, and a payload without a
questions entry (such as a summary) is returned entirely unchanged. -/
theorem validate_and_filter_output_frame {α : Type} (p : Payload α) (t : Option String) :
    (validate_and_filter_output p t).rest = p.rest ∧
    (p.questions = none → validate_and_filter_output p t = p) := by
  cases hq : p.questions with
  | none =>
    exact ⟨by rw [validate_eq_of_questions_none p t hq],
      fun _ => validate_eq_of_questions_none p t hq⟩
  | some qs =>
    exact ⟨by rw [validate_eq_of_questions_some p t qs hq], fun h => Option.noConfusion h⟩

theorem validate_and_filter_output_frame_witness :
    (validate_and_filter_output (Payload.mk none 5) (some "algebra")).rest = 5 ∧
    validate_and_filter_output (Payload.mk none 5) (some "algebra") = Payload.mk none 5 :=
  ⟨(validate_and_filter_output_frame (Payload.mk none 5) (some "algebra")).1,
    (validate_and_filter_output_frame (Payload.mk none 5) (some "algebra")).2 rfl⟩

/-- C9: when the supplied topic has an empty last space-split word (a topic
ending in a space, or the empty topic), the relevance token is falsy and the
topical-relevance rule is skipped: validation behaves exactly as if no topic
had been supplied, so no item is discarded for relevance. -/
theorem validator_empty_token_skips_relevance {α : Type} (p : Payload α) (t : String)
    (h : (pySplitSpace (pyLower t)).getLastD "" = "") :
    validate_and_filter_output p (some t) = validate_and_filter_output p none := by
  have htw : topic_word (some t) = none ∨ topic_word (some t) = some "" := by
    have hdef : topic_word (some t) =
        if t.isEmpty then none else some ((pySplitSpace (pyLower t)).getLastD "") := rfl
    rw [hdef]
    by_cases ht : t.isEmpty
    · rw [if_pos ht]
      exact Or.inl rfl
    · rw [if_neg ht, h]
      exact Or.inr rfl
  have hkeep : keepQ (topic_word (some t)) = keepQ (topic_word none) := by
    rcases htw with h1 | h1 <;> rw [h1]
    · rfl
    · exact keepQ_empty_token
  cases hq : p.questions with
  | none =>
    rw [validate_eq_of_questions_none p (some t) hq, validate_eq_of_questions_none p none hq]
  | some qs =>
    rw [validate_eq_of_questions_some p (some t) qs hq,
      validate_eq_of_questions_some p none qs hq, hkeep]

def spacedTopicItem : QItem :=
  { question := some "What is a slope?", correct_answer := some "m",
    explanation := some "Ratio of rise to run.", source_page := some 2 }

theorem validator_empty_token_witness :
    validate_and_filter_output (Payload.mk (some [spacedTopicItem]) 0) (some "algebra ") =
      validate_and_filter_output (Payload.mk (some [spacedTopicItem]) 0) none :=
  validator_empty_token_skips_relevance (Payload.mk (some [spacedTopicItem]) 0) "algebra "
    (by decide)

/-- C6: when a topic with a truthy (non-empty) last space-split word is
supplied, that lower-cased word is the relevance token: every item surviving
validation has the token as a substring of the lower-cased concatenation of
its question, explanation and sentence fields; every input item without that
substring is discarded; and the surviving items form a sublist of the input,
so their order is preserved. -/
theorem validator_topic_relevance {α : Type} (p : Payload α) (t : String)
    (qs : List QItem) (w : String) (hq : p.questions = some qs)
    (hw : topic_word (some t) = some w) (hne : w.isEmpty = false) :
    ∃ res, (validate_and_filter_output p (some t)).questions = some res ∧
      res.Sublist qs ∧
      (∀ q ∈ res, hasSubstr (pyLower (combinedText q)) w = true) ∧
      (∀ q ∈ qs, hasSubstr (pyLower (combinedText q)) w = false → q ∉ res) := by
  have hkdef : ∀ q : QItem, keepQ (topic_word (some t)) q = true →
      hasSubstr (pyLower (combinedText q)) w = true := by
    intro q hk
    have hkq : keepQ (some w) q =
        if (q.sentence.isSome && !hasSubstr (q.sentence.getD "") blankMarker) then false
        else if !pyTruthy q.correct_answer then false
        else if w.isEmpty then true else hasSubstr (pyLower (combinedText q)) w := rfl
    rw [hw, hkq, hne] at hk
    split at hk
    · exact Bool.noConfusion hk
    · split at hk
      · exact Bool.noConfusion hk
      · simpa using hk
  refine ⟨qs.filter (keepQ (topic_word (some t))), ?_, List.filter_sublist qs, ?_, ?_⟩
  · rw [validate_eq_of_questions_some p (some t) qs hq]
  · intro q hqmem
    exact hkdef q (List.mem_filter.mp hqmem).2
  · intro q _ hsub hmem
    have hk := (List.mem_filter.mp hmem).2
    rw [hkdef q hk] at hsub
    exact Bool.noConfusion hsub

def relevantItem : QItem :=
  { question := some "Which form do linear equations take?",
    options := some ["y = mx + b", "ax2 + bx + c"], correct_answer := some "y = mx + b",
    explanation := some "Slope-intercept form.", source_page := some 4 }

def offTopicItem : QItem :=
  { question := some "What is a polynomial?", options := some ["a", "b"],
    correct_answer := some "a sum of monomials", explanation := some "From page 3.",
    source_page := some 3 }

theorem validator_topic_relevance_witness :
    ∃ res,
      (validate_and_filter_output (Payload.mk (some [relevantItem, offTopicItem]) 0)
          (some "Linear Equations")).questions = some res ∧
      res.Sublist [relevantItem, offTopicItem] ∧
      (∀ q ∈ res, hasSubstr (pyLower (combinedText q)) "equations" = true) ∧
      (∀ q ∈ [relevantItem, offTopicItem],
        hasSubstr (pyLower (combinedText q)) "equations" = false → q ∉ res) :=
  validator_topic_relevance (Payload.mk (some [relevantItem, offTopicItem]) 0)
    "Linear Equations" [relevantItem, offTopicItem] "equations" rfl (by decide) rfl

/-! C1: the grounding invariant.  The claim asserts that
validate_and_filter_output enforces, for every surviving question item, that
source_page lies among the pages of the chunks retrieved for the run.  The
validator performs no such check: it never reads source_page at all. -/

def groundingChunk : Chunk := { page := some 1, text := "An equation has an equal sign." }

def ungroundedItem : QItem :=
  { question := some "Q", options := some ["a", "b"], correct_answer := some "a",
    explanation := some "E", source_page := some 99 }

/-- C1 (counterexample): a run whose only retrieved chunk carries page 1, and
whose LLM output is a single structurally valid item citing page 99, returns
that item unchanged through run_generation and its validator: the surviving
source_page 99 is not among the retrieved pages. -/
theorem validator_grounding_cex :
    retrieve_documents (fun _ _ => [groundingChunk]) true none 1 = .ok [groundingChunk] ∧
    run_generation (fun _ _ => [groundingChunk]) true (fun _ _ _ => [ungroundedItem])
        (fun _ _ _ => []) (fun _ _ => { summary_text := "", source_pages := [] })
        none ContentType.MCQ (some 1) 1 =
      .ok { questions := some [ungroundedItem], rest := none } ∧
    ungroundedItem.source_page = some 99 ∧
    (([groundingChunk].map fun d => d.page.getD 0).contains 99) = false := by
  refine ⟨rfl, rfl, rfl, by decide⟩

/-- C1 (amended): the validator does not enforce grounding: it never inspects
source_page, so validation commutes with an arbitrary rewrite of every
source_page and a surviving item keeps whatever source_page the model
produced, whether or not it lies among the retrieved pages. -/
theorem validate_ignores_source_page {α : Type} (f : Option Int → Option Int)
    (p : Payload α) (t : Option String) :
    validate_and_filter_output (mapSourcePages f p) t =
      mapSourcePages f (validate_and_filter_output p t) := by
  cases hq : p.questions with
  | none =>
    have h1 : (mapSourcePages f p).questions = none := by
      unfold mapSourcePages
      rw [hq]
      rfl
    rw [validate_eq_of_questions_none _ t h1, validate_eq_of_questions_none p t hq]
  | some qs =>
    have h1 : (mapSourcePages f p).questions =
        some (qs.map fun q => { q with source_page := f q.source_page }) := by
      unfold mapSourcePages
      rw [hq]
      rfl
    rw [validate_eq_of_questions_some _ t _ h1, validate_eq_of_questions_some p t qs hq]
    have hcomp : (keepQ (topic_word t)) ∘ (fun q : QItem => { q with source_page := f q.source_page }) =
        keepQ (topic_word t) := funext fun q => rfl
    unfold mapSourcePages
    rw [List.filter_map, hcomp]
    rfl

/-! Helper lemmas about sortedDistinctPages. -/

theorem sortedDistinctPages_sorted (documents : List Chunk) :
    (sortedDistinctPages documents).Sorted (· ≤ ·) :=
  List.sorted_insertionSort _ _

theorem sortedDistinctPages_nodup (documents : List Chunk) :
    (sortedDistinctPages documents).Nodup :=
  (List.perm_insertionSort _ _).nodup_iff.mpr (List.nodup_dedup _)

theorem sortedDistinctPages_mem (documents : List Chunk) (x : Int) :
    x ∈ sortedDistinctPages documents ↔ x ∈ documents.map fun d => d.page.getD 0 := by
  unfold sortedDistinctPages
  rw [(List.perm_insertionSort _ _).mem_iff, List.mem_dedup]

/-- C4: on every Summary run, whatever source_pages value the LLM returns, the
final payload carries the summary text produced by the model together with
source_pages equal to the sorted duplicate-free list of the page numbers of
the chunks retrieved for the run: sorted ascending, without duplicates, and
containing exactly the pages of the retrieved chunks; rewriting the source
pages the model reports does not change the run result at all. -/
theorem summary_run_source_pages_override
    (search : String → Nat → List Chunk)
    (llmMCQ llmFITB : List Chunk → Option String → Option Nat → List QItem)
    (llmSummary : List Chunk → Option String → Summary)
    (topic : Option String) (nq : Option Nat) (k : Nat) (docs : List Chunk)
    (hdocs : retrieve_documents search true topic k = .ok docs) :
    ∃ sd : Summary,
      run_generation search true llmMCQ llmFITB llmSummary topic ContentType.Summary nq k =
        .ok { questions := none, rest := some sd } ∧
      sd.summary_text = (llmSummary docs topic).summary_text ∧
      sd.source_pages.Sorted (· ≤ ·) ∧
      sd.source_pages.Nodup ∧
      (∀ x, x ∈ sd.source_pages ↔ x ∈ docs.map fun d => d.page.getD 0) ∧
      ∀ l, run_generation search true llmMCQ llmFITB
          (fun ds tp => { llmSummary ds tp with source_pages := l })
          topic ContentType.Summary nq k =
        run_generation search true llmMCQ llmFITB llmSummary topic ContentType.Summary nq k := by
  have hrun : ∀ g : List Chunk → Option String → Summary,
      run_generation search true llmMCQ llmFITB g topic ContentType.Summary nq k =
        .ok { questions := none,
              rest := some { summary_text := (g docs topic).summary_text,
                             source_pages := sortedDistinctPages docs } } := by
    intro g
    unfold run_generation
    rw [hdocs]
    rfl
  refine ⟨{ summary_text := (llmSummary docs topic).summary_text,
            source_pages := sortedDistinctPages docs },
    hrun llmSummary, rfl, sortedDistinctPages_sorted docs, sortedDistinctPages_nodup docs,
    fun x => sortedDistinctPages_mem docs x, fun l => ?_⟩
  rw [hrun (fun ds tp => { llmSummary ds tp with source_pages := l }), hrun llmSummary]

theorem summary_run_source_pages_override_witness :
    ∃ sd : Summary,
      run_generation (fun _ _ => [Chunk.mk (some 2) "b", Chunk.mk (some 1) "a"]) true
          (fun _ _ _ => []) (fun _ _ _ => [])
          (fun _ _ => { summary_text := "s", source_pages := [9] })
          (some "t") ContentType.Summary none 1 =
        .ok { questions := none, rest := some sd } ∧
      sd.summary_text = "s" ∧
      sd.source_pages.Sorted (· ≤ ·) ∧
      sd.source_pages.Nodup ∧
      (∀ x, x ∈ sd.source_pages ↔
        x ∈ ([Chunk.mk (some 2) "b", Chunk.mk (some 1) "a"].map fun d => d.page.getD 0)) := by
  obtain ⟨sd, h1, h2, h3, h4, h5, _⟩ :=
    summary_run_source_pages_override (fun _ _ => [Chunk.mk (some 2) "b", Chunk.mk (some 1) "a"])
      (fun _ _ _ => []) (fun _ _ _ => [])
      (fun _ _ => { summary_text := "s", source_pages := [9] })
      (some "t") none 1 [Chunk.mk (some 2) "b", Chunk.mk (some 1) "a"] rfl
  exact ⟨sd, h1, h2, h3, h4, h5⟩

/-! C7: the count bound.  Nothing after generation truncates the question
list to num_questions: the requested count only parameterizes the prompt, so
an LLM output with more structurally valid items than requested is returned
in full. -/

def extraItem1 : QItem :=
  { question := some "Q1", options := some ["a", "b"], correct_answer := some "a",
    explanation := some "E1", source_page := some 1 }

def extraItem2 : QItem :=
  { question := some "Q2", options := some ["a", "b"], correct_answer := some "b",
    explanation := some "E2", source_page := some 1 }

/-- C7 (counterexample): an MCQ run requesting one question, whose LLM output
contains two structurally valid items, returns both items: the payload item
count 2 exceeds the requested num_questions of 1. -/
theorem run_generation_count_exceeds_request_cex :
    run_generation (fun _ _ => [Chunk.mk (some 1) "t"]) true
        (fun _ _ _ => [extraItem1, extraItem2]) (fun _ _ _ => [])
        (fun _ _ => { summary_text := "", source_pages := [] })
        none ContentType.MCQ (some 1) 1 =
      .ok { questions := some [extraItem1, extraItem2], rest := none } ∧
    1 < ((Payload.mk (some [extraItem1, extraItem2]) (none : Option Summary)).questions.getD
        []).length := by
  exact ⟨rfl, by decide⟩

/-- C7 (amended): the only count bound run_generation guarantees is that
validation never adds items: for an MCQ or FillInTheBlank run the number of
question items in the returned payload is at most the number of items in the
LLM output for the retrieved chunks; the requested num_questions is not
enforced as an upper bound. -/
theorem run_generation_count_le_llm_output
    (search : String → Nat → List Chunk)
    (llmMCQ llmFITB : List Chunk → Option String → Option Nat → List QItem)
    (llmSummary : List Chunk → Option String → Summary)
    (topic : Option String) (ct : ContentType) (nq : Option Nat) (k : Nat)
    (docs : List Chunk) (p : Payload (Option Summary))
    (hdocs : retrieve_documents search true topic k = .ok docs)
    (hct : ct = ContentType.MCQ ∨ ct = ContentType.FillInTheBlank)
    (hrun : run_generation search true llmMCQ llmFITB llmSummary topic ct nq k = .ok p) :
    (p.questions.getD []).length ≤
      (match ct with
       | ContentType.MCQ => llmMCQ docs topic nq
       | _ => llmFITB docs topic nq).length := by
  have hM : run_generation search true llmMCQ llmFITB llmSummary topic ContentType.MCQ nq k =
      .ok (validate_and_filter_output (mcq_agent llmMCQ docs topic nq) topic) := by
    unfold run_generation
    rw [hdocs]
  have hF : run_generation search true llmMCQ llmFITB llmSummary topic
      ContentType.FillInTheBlank nq k =
      .ok (validate_and_filter_output (fitb_agent llmFITB docs topic nq) topic) := by
    unfold run_generation
    rw [hdocs]
  rcases hct with h | h <;> subst h
  · rw [hM] at hrun
    rw [← Except.ok.inj hrun]
    exact List.length_filter_le _ _
  · rw [hF] at hrun
    rw [← Except.ok.inj hrun]
    exact List.length_filter_le _ _

theorem run_generation_count_le_llm_output_witness :
    ((Payload.mk (some [extraItem1, extraItem2]) (none : Option Summary)).questions.getD
      []).length ≤ ([extraItem1, extraItem2] : List QItem).length :=
  run_generation_count_le_llm_output (fun _ _ => [Chunk.mk (some 1) "t"])
    (fun _ _ _ => [extraItem1, extraItem2]) (fun _ _ _ => [])
    (fun _ _ => { summary_text := "", source_pages := [] }) none ContentType.MCQ (some 1) 1
    [Chunk.mk (some 1) "t"] (Payload.mk (some [extraItem1, extraItem2]) none)
    rfl (Or.inl rfl) rfl

/-! C8: the retrieval policy.  The code branches on Python truthiness of the
topic, so a present-but-empty topic string takes the generic fallback branch
even though a topic was supplied. -/

def emptyTopicSearch : String → Nat → List Chunk := fun q _ =>
  if q.isEmpty then [Chunk.mk (some 2) "result for the empty topic query"]
  else if q = genericQuery then [Chunk.mk (some 1) "result for the generic query"]
  else []

/-- C8 (counterexample): with a topic that is present but equal to the empty
string, retrieve_documents issues the generic fallback query rather than a
similarity query for the supplied topic string: against a search oracle that
answers the two queries differently, the run returns the generic-query result,
not the result the topic query would have produced. -/
theorem retrieve_documents_empty_topic_cex :
    retrieve_documents emptyTopicSearch true (some "") 3 =
      .ok [Chunk.mk (some 1) "result for the generic query"] ∧
    emptyTopicSearch "" 3 = [Chunk.mk (some 2) "result for the empty topic query"] := by
  exact ⟨rfl, rfl⟩

/-- C8 (amended): if a non-empty topic is supplied, a similarity query for the
topic string is issued requesting context_chunks results; if the topic is
absent, or present but empty, the fixed generic overview query is issued and
its results are truncated to context_chunks; with the index present every one
of these cases returns ok, so omitting the topic is never an input-validation
error. -/
theorem retrieve_documents_policy (search : String → Nat → List Chunk) (k : Nat) :
    (∀ t : String, t.isEmpty = false →
      retrieve_documents search true (some t) k = .ok (search t k)) ∧
    retrieve_documents search true none k = .ok ((search genericQuery k).take k) ∧
    retrieve_documents search true (some "") k = .ok ((search genericQuery k).take k) := by
  refine ⟨fun t ht => ?_, rfl, rfl⟩
  have hdef : retrieve_documents search true (some t) k =
      if t.isEmpty then .ok ((search genericQuery k).take k) else .ok (search t k) := rfl
  rw [hdef, ht]
  rfl

theorem retrieve_documents_policy_witness :
    retrieve_documents (fun q n => [Chunk.mk (some 1) (q ++ toString n)]) true (some "alg") 2 =
      .ok [Chunk.mk (some 1) "alg2"] :=
  (retrieve_documents_policy (fun q n => [Chunk.mk (some 1) (q ++ toString n)]) 2).1 "alg" rfl

/-- C2 (code evaluation): with the persisted index absent, retrieval raises
the distinguished FileNotFoundError, but run_generation catches every
exception and re-raises HTTPException(500, ...), so the endpoint handler's
FileNotFoundError-to-400 branch never fires: the client observes a 500
wrapping the not-ingested message, not the 400 the specification and the
repository test test_generate_before_ingest require. -/
theorem generate_questions_missing_index_returns_500 :
    retrieve_documents (fun _ _ => []) false (some "testing") 5 =
      .error (.fileNotFound vectorStoreMissingMsg) ∧
    generate_questions (fun _ _ => []) false (fun _ _ _ => []) (fun _ _ _ => [])
        (fun _ _ => { summary_text := "", source_pages := [] })
        (some "testing") ContentType.MCQ (some 3) 5 =
      .error (.httpExc 500 "An error occurred: 500: An error occurred during content generation: Vector store not found. Please ingest a document first.") := by
  exact ⟨rfl, rfl⟩

/-- C3 (code evaluation): when generation succeeds structurally but yields
zero usable items, the endpoint raises HTTPException(404, ...) inside its own
try block; that exception is immediately caught by the blanket except clause
and re-raised as HTTPException(500, ...), so the client observes a 500, not
the intended, distinguished 404. -/
theorem generate_questions_empty_result_returns_500 :
    generate_questions (fun _ _ => [Chunk.mk (some 1) "c"]) true
        (fun _ _ _ => []) (fun _ _ _ => [])
        (fun _ _ => { summary_text := "", source_pages := [] })
        (some "algebra") ContentType.MCQ (some 3) 5 =
      .error (.httpExc 500 "An error occurred: 404: The agent could not generate content for the given topic.") := by
  exact rfl

end RagQG
